import Mathlib

/-!
Shallow embedding of `tensorflow/core/profiler/lib/profiler_session.cc`.

The session orchestrates: acquiring a process-wide profiler lock, merging
caller options with defaults, optionally sleeping until a scheduled start
time, creating collector plugins through an external factory, starting them,
and later stopping them, collecting their data and post-processing it.

External effects (plugin calls, lock release, factory consultation, sleeping,
post-processing) are recorded as events in a `World`, which also carries the
process-wide active-session flag and a logical nanosecond clock.  Plugins are
modelled by the results their three operations return plus the datum a
successful `CollectData` contributes to the output container.
-/

/-- Error codes of `tensorflow::Status` that this component produces or
receives: `Unimplemented` on the mobile path, `AlreadyExists` from the
profiler lock, and a catch-all for plugin-produced errors. -/
inductive ErrorCode where
  | unimplemented
  | alreadyExists
  | internal
deriving Repr, DecidableEq

/-- `tensorflow::Status`: success or a typed failure with a message. -/
inductive Status where
  | OK : Status
  | error (code : ErrorCode) (msg : String) : Status
deriving Repr, DecidableEq

/-- `ProfileOptions` proto restricted to the fields the source reads
(`version`, `include_dataset_ops`, `start_timestamp_ns`); `other` stands for
all remaining proto fields, so that "use the caller's options verbatim"
versus "reset every other field to the default" is observable. -/
structure ProfileOptions where
  version : Nat
  include_dataset_ops : Bool
  start_timestamp_ns : Int
  other : Nat
deriving Repr, DecidableEq

/-- A default-constructed `ProfileOptions` proto: every field zero/false. -/
def ProfileOptions.protoDefault : ProfileOptions :=
  { version := 0, include_dataset_ops := false, start_timestamp_ns := 0, other := 0 }

/-- Modelled from the spec: `ProfilerSession::DefaultOptions()` is defined in
the header `profiler_session.h`, which is not part of the sources here.  Per
the spec, the defaults are a new-format configuration (nonzero version
marker) with no scheduled start (absent timestamp means start immediately);
`other` stands for the remaining default field values. -/
def DefaultOptions : ProfileOptions :=
  { version := 1, include_dataset_ops := true, start_timestamp_ns := 0, other := 2 }

/-- `GetOptions` from the anonymous namespace of `profiler_session.cc`: if the
caller-supplied options carry a nonzero version, use them verbatim; otherwise
take the defaults and override only `include_dataset_ops`. -/
def GetOptions (opts : ProfileOptions) : ProfileOptions :=
  if opts.version ≠ 0 then opts
  else { DefaultOptions with include_dataset_ops := opts.include_dataset_ops }

/-- A collector plugin (`profiler::ProfilerInterface`), modelled by the
results its operations return and the datum a successful `CollectData`
appends to the output `XSpace`. -/
structure CollectorPlugin where
  startResult : Status
  stopResult : Status
  collectResult : Status
  data : Nat
deriving Repr, DecidableEq

/-- Observable external actions of the session, in the order they happen. -/
inductive Event where
  | sleep (durationNs : Int)
  | factoryCreate
  | pluginStart (i : Nat)
  | pluginStop (i : Nat)
  | pluginCollect (i : Nat)
  | lockRelease
  | postProcess (startTimeNs : Option Int)
deriving Repr, DecidableEq

/-- Process-wide state threaded through every operation: the global
"a session is active" flag behind `ProfilerLock`, the logical clock
(`GetCurrentTimeNanos`), and the log of observable events. -/
structure World where
  sessionActive : Bool
  now : Int
  events : List Event
deriving Repr, DecidableEq

/-- The session's `profiler::ProfilerLock` token: whether this token still
holds the process-wide lock. -/
structure ProfilerLock where
  active : Bool
deriving Repr, DecidableEq

/-- Modelled from the spec: `ProfilerLock::Acquire` lives in
`profiler_lock.cc`, which is not part of the sources here.  Per the spec the
process lock is a single process-global flag with an atomic try-acquire: it
fails when another session is already active, otherwise it sets the flag and
yields an active token. -/
def ProfilerLock.Acquire (w : World) : Except Status ProfilerLock × World :=
  if w.sessionActive then
    (Except.error (Status.error ErrorCode.alreadyExists
        "Another profiler session is active."), w)
  else
    (Except.ok { active := true }, { w with sessionActive := true })

/-- Modelled from the spec: `ProfilerLock::ReleaseIfActive` lives in
`profiler_lock.h`, which is not part of the sources here.  Per the spec the
release is idempotent: an active token clears the process-global flag (one
`lockRelease` event); an inactive token does nothing. -/
def ProfilerLock.ReleaseIfActive (l : ProfilerLock) (w : World) : ProfilerLock × World :=
  if l.active then
    ({ active := false },
     { w with sessionActive := false, events := w.events ++ [Event.lockRelease] })
  else (l, w)

/-- The output container `profiler::XSpace`, abstracted to the list of data
contributed by the plugins whose `CollectData` succeeded. -/
abbrev XSpace := List Nat

/-- `ProfilerSession`'s member state: the merged options, the stored status,
the plugin list in factory order, the lock token, and the recorded start
time (`none` when construction stopped before recording it). -/
structure ProfilerSession where
  options_ : ProfileOptions
  status_ : Status
  profilers_ : List CollectorPlugin
  profiler_lock_ : ProfilerLock
  start_time_ns_ : Option Int
deriving Repr, DecidableEq

/-- The events of calling an operation on every plugin in list order,
indices following `List.enum`. -/
def pluginEvents (mk : Nat → Event) (ps : List CollectorPlugin) : List Event :=
  ps.enum.map fun p => mk p.1

/-- The `ProfilerSession` constructor on the non-mobile path.  The factory
(`CreateProfilers`) is an external collaborator, passed in as a function from
the merged options to the ordered plugin list.  Steps, as in the source:
merge options; try to acquire the profiler lock, storing its failure and
returning early on failure; sleep until `start_timestamp_ns` if it is set and
not already past (a past timestamp only logs a warning); record the start
time; create the plugins; start each one, ignoring per-plugin failures. -/
def ProfilerSession.construct (factory : ProfileOptions → List CollectorPlugin)
    (options : ProfileOptions) (w : World) : ProfilerSession × World :=
  let opts := GetOptions options
  match ProfilerLock.Acquire w with
  | (Except.error st, w1) =>
      ({ options_ := opts, status_ := st, profilers_ := [],
         profiler_lock_ := { active := false }, start_time_ns_ := none }, w1)
  | (Except.ok lock, w1) =>
      let w2 :=
        if opts.start_timestamp_ns > 0 then
          let sleep_duration_ns : Int := opts.start_timestamp_ns - w1.now
          if sleep_duration_ns < 0 then w1
          else { w1 with now := w1.now + sleep_duration_ns,
                         events := w1.events ++ [Event.sleep sleep_duration_ns] }
        else w1
      let start_time_ns := w2.now
      let w3 := { w2 with events := w2.events ++ [Event.factoryCreate] }
      let profilers := factory opts
      let w4 := { w3 with
        events := w3.events ++ pluginEvents Event.pluginStart profilers }
      ({ options_ := opts, status_ := Status.OK, profilers_ := profilers,
         profiler_lock_ := lock, start_time_ns_ := some start_time_ns }, w4)

/-- `ProfilerSession::Create`: wraps `new ProfilerSession(options)` in a
`unique_ptr`; the handle is always non-null, modelled as `some`. -/
def ProfilerSession.Create (factory : ProfileOptions → List CollectorPlugin)
    (options : ProfileOptions) (w : World) : Option ProfilerSession × World :=
  let r := ProfilerSession.construct factory options w
  (some r.1, r.2)

/-- `ProfilerSession::Status()`: returns the stored status (the mutex only
serializes threads and is invisible in this sequential model). -/
def ProfilerSession.getStatus (s : ProfilerSession) : Status :=
  s.status_

/-- `ProfilerSession::CollectDataInternal` on the non-mobile path: propagate
the stored status if it is not OK; otherwise stop every plugin in order
(failures ignored), collect data from every plugin in order into `space`
(failures ignored, a failing plugin contributes nothing), then release the
lock if it is still active, and return OK. -/
def ProfilerSession.CollectDataInternal (s : ProfilerSession) (space : XSpace)
    (w : World) : Status × ProfilerSession × XSpace × World :=
  if s.status_ = Status.OK then
    let w1 := { w with events := w.events ++ pluginEvents Event.pluginStop s.profilers_ }
    let space1 := s.profilers_.foldl
      (fun sp p => if p.collectResult = Status.OK then sp ++ [p.data] else sp) space
    let w2 := { w1 with
      events := w1.events ++ pluginEvents Event.pluginCollect s.profilers_ }
    let lw := s.profiler_lock_.ReleaseIfActive w2
    (Status.OK, { s with profiler_lock_ := lw.1 }, space1, lw.2)
  else (s.status_, s, space, w)

/-- `ProfilerSession::CollectData` on the non-mobile path: run
`CollectDataInternal`, propagating its failure; on success run
`PostProcessSingleHostXSpace(space, start_time_ns_)` (an external step,
recorded as an event) and return OK. -/
def ProfilerSession.CollectData (s : ProfilerSession) (space : XSpace)
    (w : World) : Status × ProfilerSession × XSpace × World :=
  let r := s.CollectDataInternal space w
  if r.1 = Status.OK then
    let w2 := { r.2.2.2 with
      events := r.2.2.2.events ++ [Event.postProcess r.2.1.start_time_ns_] }
    (Status.OK, r.2.1, r.2.2.1, w2)
  else r

/-- `ProfilerSession::~ProfilerSession` on the non-mobile path: stop every
plugin in order (failures ignored) and release the lock if still active. -/
def ProfilerSession.destructor (s : ProfilerSession) (w : World) : World :=
  let w1 := { w with events := w.events ++ pluginEvents Event.pluginStop s.profilers_ }
  (s.profiler_lock_.ReleaseIfActive w1).2

/-- The `ProfilerSession` constructor on the mobile path
(`IS_MOBILE_PLATFORM`): the initializer list only sets
`status_` to `Unimplemented`; no lock is attempted, no option merge runs, no
plugin is created, nothing is recorded, and the world is untouched. -/
def ProfilerSession.constructMobile (_options : ProfileOptions) (w : World) :
    ProfilerSession × World :=
  ({ options_ := ProfileOptions.protoDefault,
     status_ := Status.error ErrorCode.unimplemented
       "Profiler is unimplemented for mobile platforms.",
     profilers_ := [], profiler_lock_ := { active := false },
     start_time_ns_ := none }, w)

/-- `ProfilerSession::CollectDataInternal` on the mobile path: only the
mutex acquisition and the stored-status check survive preprocessing, so it
propagates the stored status and otherwise returns OK doing nothing. -/
def ProfilerSession.CollectDataInternalMobile (s : ProfilerSession) (space : XSpace)
    (w : World) : Status × ProfilerSession × XSpace × World :=
  if s.status_ = Status.OK then (Status.OK, s, space, w)
  else (s.status_, s, space, w)

/-- `ProfilerSession::CollectData` on the mobile path: the whole body,
including the `CollectDataInternal` call, is compiled out; it returns
`Status::OK()` unconditionally and touches nothing. -/
def ProfilerSession.CollectDataMobile (s : ProfilerSession) (space : XSpace)
    (w : World) : Status × ProfilerSession × XSpace × World :=
  (Status.OK, s, space, w)

/-- Number of `lockRelease` events in a trace: how many times the process
lock was actually freed. -/
def countReleases (es : List Event) : Nat :=
  es.countP fun e => decide (e = Event.lockRelease)

/-! Concrete sample values used by witness theorems. -/

/-- A free world: no active session, clock at 100 ns, empty event log. -/
def w0 : World := { sessionActive := false, now := 100, events := [] }

/-- A busy world: another profiler session is already active. -/
def wBusy : World := { sessionActive := true, now := 100, events := [] }

/-- A plugin whose every operation succeeds. -/
def pOK : CollectorPlugin :=
  { startResult := Status.OK, stopResult := Status.OK,
    collectResult := Status.OK, data := 7 }

/-- A plugin whose every operation fails. -/
def pBad : CollectorPlugin :=
  { startResult := Status.error ErrorCode.internal "boom",
    stopResult := Status.error ErrorCode.internal "boom",
    collectResult := Status.error ErrorCode.internal "boom", data := 9 }

/-- A sample factory producing one succeeding and one failing plugin. -/
def sampleFactory : ProfileOptions → List CollectorPlugin := fun _ => [pOK, pBad]

/-- Old-format options: version 0, with a (to-be-discarded) scheduled start. -/
def optsV0 : ProfileOptions :=
  { version := 0, include_dataset_ops := true, start_timestamp_ns := 500, other := 9 }

/-- New-format options: nonzero version, no scheduled start. -/
def optsV1 : ProfileOptions :=
  { version := 1, include_dataset_ops := false, start_timestamp_ns := 0, other := 3 }

/-- A session whose construction failed at lock acquisition. -/
def sFailed : ProfilerSession :=
  { options_ := optsV1,
    status_ := Status.error ErrorCode.alreadyExists
      "Another profiler session is active.",
    profilers_ := [], profiler_lock_ := { active := false },
    start_time_ns_ := none }

/-- A successfully constructed session still holding the lock. -/
def sOK : ProfilerSession :=
  { options_ := optsV1, status_ := Status.OK, profilers_ := [pOK, pBad],
    profiler_lock_ := { active := true }, start_time_ns_ := some 100 }

/-- A successfully constructed session after its lock was already released. -/
def sReleased : ProfilerSession :=
  { options_ := optsV1, status_ := Status.OK, profilers_ := [pOK, pBad],
    profiler_lock_ := { active := false }, start_time_ns_ := some 100 }

/-! Theorems for the claims. -/

/-- C6: if the caller's options carry a nonzero version, the merged options
are the caller's input unchanged; if the version is zero, the merged options
are the defaults with only `include_dataset_ops` overridden to the caller's
value. -/
theorem c6_options_merge (opts : ProfileOptions) :
    (opts.version ≠ 0 → GetOptions opts = opts) ∧
    (opts.version = 0 →
      GetOptions opts =
        { DefaultOptions with include_dataset_ops := opts.include_dataset_ops }) := by
  constructor
  · intro h; simp [GetOptions, h]
  · intro h; simp [GetOptions, h]

/-- Witness for C6 at the concrete options `optsV1` (version 1) and `optsV0`
(version 0). -/
theorem c6_options_merge_witness :
    GetOptions optsV1 = optsV1 ∧
    GetOptions optsV0 =
      { DefaultOptions with include_dataset_ops := optsV0.include_dataset_ops } :=
  ⟨(c6_options_merge optsV1).1 (by decide), (c6_options_merge optsV0).2 (by decide)⟩

/-- C10: with version 0, every field other than `include_dataset_ops` becomes
the default — in particular the caller's `start_timestamp_ns` is discarded
(the merged timestamp is the default 0), so construction from such options
never sleeps: the clock is unchanged and no `sleep` event is emitted. -/
theorem c10_version_zero_no_delayed_start (opts : ProfileOptions)
    (h : opts.version = 0) :
    (GetOptions opts).start_timestamp_ns = DefaultOptions.start_timestamp_ns ∧
    DefaultOptions.start_timestamp_ns = 0 ∧
    (GetOptions opts).version = DefaultOptions.version ∧
    (GetOptions opts).other = DefaultOptions.other ∧
    (GetOptions opts).include_dataset_ops = opts.include_dataset_ops ∧
    ∀ (factory : ProfileOptions → List CollectorPlugin) (w : World),
      w.sessionActive = false →
        (ProfilerSession.construct factory opts w).2.now = w.now ∧
        (ProfilerSession.construct factory opts w).2.events =
          w.events ++ [Event.factoryCreate] ++
            pluginEvents Event.pluginStart (factory (GetOptions opts)) := by
  refine ⟨by simp [GetOptions, h, DefaultOptions], rfl, by simp [GetOptions, h],
    by simp [GetOptions, h], by simp [GetOptions, h], ?_⟩
  intro factory w hw
  simp [ProfilerSession.construct, ProfilerLock.Acquire, hw, GetOptions, h,
    DefaultOptions]

/-- Witness for C10 at `optsV0` (version 0, scheduled start 500) in the free
world `w0`. -/
theorem c10_version_zero_no_delayed_start_witness :
    (GetOptions optsV0).start_timestamp_ns = DefaultOptions.start_timestamp_ns ∧
    (ProfilerSession.construct sampleFactory optsV0 w0).2.now = w0.now := by
  have h := c10_version_zero_no_delayed_start optsV0 (by decide)
  exact ⟨h.1, (h.2.2.2.2.2 sampleFactory w0 (by decide)).1⟩

/-- C2: on a session whose construction failed, `CollectData` returns the
stored failure and changes nothing: the session, the output space and the
world (hence also the event log and the lock flag) are returned untouched. -/
theorem c2_collect_on_failed_session (s : ProfilerSession) (space : XSpace)
    (w : World) (h : s.status_ ≠ Status.OK) :
    ProfilerSession.CollectData s space w = (s.status_, s, space, w) := by
  simp [ProfilerSession.CollectData, ProfilerSession.CollectDataInternal, h]

/-- Witness for C2 at the concrete failed session `sFailed`. -/
theorem c2_collect_on_failed_session_witness :
    ProfilerSession.CollectData sFailed [] w0 = (sFailed.status_, sFailed, [], w0) :=
  c2_collect_on_failed_session sFailed [] w0 (by decide)

/-- C8 counterexample: on the mobile path the stored status is the terminal
`Unimplemented` error, yet `CollectData` returns `OK` — the platform-support
error is not visible through `CollectData`'s return, contrary to the claim. -/
theorem c8_counterexample :
    (ProfilerSession.constructMobile optsV1 w0).1.status_ ≠ Status.OK ∧
    (ProfilerSession.CollectDataMobile
      (ProfilerSession.constructMobile optsV1 w0).1 [] w0).1 = Status.OK := by
  constructor
  · decide
  · rfl

/-- C8 amended: mobile construction immediately stores the terminal
`Unimplemented` status without attempting lock acquisition (the world is
untouched), and the error is visible through `Status()`; however `CollectData`
on the mobile path returns `OK` unconditionally (its body is compiled out) —
only `CollectDataInternal` would propagate the stored error. -/
theorem c8_mobile_terminal_status (options : ProfileOptions) (space : XSpace)
    (w : World) :
    (ProfilerSession.constructMobile options w).2 = w ∧
    (ProfilerSession.constructMobile options w).1.status_ =
      Status.error ErrorCode.unimplemented
        "Profiler is unimplemented for mobile platforms." ∧
    (ProfilerSession.constructMobile options w).1.getStatus =
      Status.error ErrorCode.unimplemented
        "Profiler is unimplemented for mobile platforms." ∧
    (ProfilerSession.constructMobile options w).1.profilers_ = [] ∧
    ProfilerSession.CollectDataInternalMobile
        (ProfilerSession.constructMobile options w).1 space w =
      ((ProfilerSession.constructMobile options w).1.status_,
       (ProfilerSession.constructMobile options w).1, space, w) ∧
    ProfilerSession.CollectDataMobile
        (ProfilerSession.constructMobile options w).1 space w =
      (Status.OK, (ProfilerSession.constructMobile options w).1, space, w) := by
  refine ⟨rfl, rfl, rfl, rfl, ?_, rfl⟩
  simp [ProfilerSession.CollectDataInternalMobile, ProfilerSession.constructMobile]

/-- C9: `Create` always returns a non-null handle — the constructed session
itself — even when the lock is unavailable, in which case the failure is
observable through `Status()` on the returned handle. -/
theorem c9_create_never_null (factory : ProfileOptions → List CollectorPlugin)
    (options : ProfileOptions) (w : World) :
    (ProfilerSession.Create factory options w).1 =
      some (ProfilerSession.construct factory options w).1 ∧
    (w.sessionActive = true →
      ∃ s, (ProfilerSession.Create factory options w).1 = some s ∧
        s.getStatus ≠ Status.OK) := by
  refine ⟨rfl, ?_⟩
  intro h
  refine ⟨(ProfilerSession.construct factory options w).1, rfl, ?_⟩
  simp [ProfilerSession.construct, ProfilerLock.Acquire, h, ProfilerSession.getStatus]

/-- Witness for C9 in the busy world `wBusy`, where lock acquisition fails. -/
theorem c9_create_never_null_witness :
    (ProfilerSession.Create sampleFactory optsV1 wBusy).1 =
      some (ProfilerSession.construct sampleFactory optsV1 wBusy).1 ∧
    ∃ s, (ProfilerSession.Create sampleFactory optsV1 wBusy).1 = some s ∧
      s.getStatus ≠ Status.OK := by
  have h := c9_create_never_null sampleFactory optsV1 wBusy
  exact ⟨h.1, h.2 (by decide)⟩

/-- C1: if lock acquisition fails, the session stores the lock's failure and
construction stops — no plugins, no recorded start time, no events (the
world is returned untouched); if it succeeds, the status is OK and the
session's plugin list is exactly the factory's list, regardless of any
plugin start failures. -/
theorem c1_construction_lock_gate (factory : ProfileOptions → List CollectorPlugin)
    (options : ProfileOptions) (w : World) :
    (w.sessionActive = true →
      ∃ st, (ProfilerLock.Acquire w).1 = Except.error st ∧
        ProfilerSession.construct factory options w =
          ({ options_ := GetOptions options, status_ := st, profilers_ := [],
             profiler_lock_ := { active := false }, start_time_ns_ := none }, w)) ∧
    (w.sessionActive = false →
      (ProfilerSession.construct factory options w).1.status_ = Status.OK ∧
      (ProfilerSession.construct factory options w).1.profilers_ =
        factory (GetOptions options)) := by
  constructor
  · intro h
    refine ⟨Status.error ErrorCode.alreadyExists
      "Another profiler session is active.", ?_, ?_⟩
    · simp [ProfilerLock.Acquire, h]
    · simp [ProfilerSession.construct, ProfilerLock.Acquire, h]
  · intro h
    constructor <;> simp [ProfilerSession.construct, ProfilerLock.Acquire, h]

/-- Witness for C1: lock failure in `wBusy`; success in `w0` with a factory
containing a plugin whose `Start` fails (it stays in the list). -/
theorem c1_construction_lock_gate_witness :
    (∃ st, (ProfilerLock.Acquire wBusy).1 = Except.error st ∧
      ProfilerSession.construct sampleFactory optsV1 wBusy =
        ({ options_ := GetOptions optsV1, status_ := st, profilers_ := [],
           profiler_lock_ := { active := false }, start_time_ns_ := none }, wBusy)) ∧
    ((ProfilerSession.construct sampleFactory optsV1 w0).1.status_ = Status.OK ∧
     (ProfilerSession.construct sampleFactory optsV1 w0).1.profilers_ =
       sampleFactory (GetOptions optsV1)) :=
  ⟨(c1_construction_lock_gate sampleFactory optsV1 wBusy).1 (by decide),
   (c1_construction_lock_gate sampleFactory optsV1 w0).2 (by decide)⟩

/-- `countReleases` distributes over list append. -/
theorem countReleases_append (a b : List Event) :
    countReleases (a ++ b) = countReleases a + countReleases b := by
  simp [countReleases, List.countP_append]

/-- Per-plugin events never free the lock. -/
theorem countReleases_pluginEvents (mk : Nat → Event)
    (hmk : ∀ i, mk i ≠ Event.lockRelease) (ps : List CollectorPlugin) :
    countReleases (pluginEvents mk ps) = 0 := by
  simp only [countReleases, pluginEvents, List.countP_map]
  rw [List.countP_eq_zero]
  intro p _
  simp [hmk p.1]

/-- Unfolding of `CollectData` on a session with OK status whose lock is
still active: one stop event and one collect event per plugin in order, the
collected data of the succeeding plugins appended to the space, the lock
released, post-processing recorded, result OK.  Shared helper. -/
theorem collectData_ok_active_eq (s : ProfilerSession) (space : XSpace) (w : World)
    (h : s.status_ = Status.OK) (hl : s.profiler_lock_.active = true) :
    ProfilerSession.CollectData s space w =
      (Status.OK,
       { s with profiler_lock_ := { active := false } },
       s.profilers_.foldl
         (fun sp p => if p.collectResult = Status.OK then sp ++ [p.data] else sp) space,
       { w with sessionActive := false,
                events := w.events ++ pluginEvents Event.pluginStop s.profilers_
                  ++ pluginEvents Event.pluginCollect s.profilers_
                  ++ [Event.lockRelease]
                  ++ [Event.postProcess s.start_time_ns_] }) := by
  simp [ProfilerSession.CollectData, ProfilerSession.CollectDataInternal,
    ProfilerLock.ReleaseIfActive, h, hl, List.append_assoc]

/-- C3: on a session with OK status holding the lock, `CollectData` stops
every plugin in factory order, then collects from every plugin in factory
order into the borrowed output (failing plugins contribute nothing), then
releases the process lock, then records the single post-processing step with
the recorded start time; per-plugin failures are ignored and the call
returns OK, for every plugin list, including the empty one. -/
theorem c3_collect_sequence (s : ProfilerSession) (space : XSpace) (w : World)
    (h : s.status_ = Status.OK) (hl : s.profiler_lock_.active = true) :
    ProfilerSession.CollectData s space w =
      (Status.OK,
       { s with profiler_lock_ := { active := false } },
       s.profilers_.foldl
         (fun sp p => if p.collectResult = Status.OK then sp ++ [p.data] else sp) space,
       { w with sessionActive := false,
                events := w.events ++ pluginEvents Event.pluginStop s.profilers_
                  ++ pluginEvents Event.pluginCollect s.profilers_
                  ++ [Event.lockRelease]
                  ++ [Event.postProcess s.start_time_ns_] }) :=
  collectData_ok_active_eq s space w h hl

/-- Witness for C3 at `sOK` (plugins `[pOK, pBad]`): the failing plugin is
stopped and collected too, contributes no data, and the call returns OK. -/
theorem c3_collect_sequence_witness :
    ProfilerSession.CollectData sOK [] w0 =
      (Status.OK,
       { sOK with profiler_lock_ := { active := false } },
       sOK.profilers_.foldl
         (fun sp p => if p.collectResult = Status.OK then sp ++ [p.data] else sp) [],
       { w0 with sessionActive := false,
                 events := w0.events ++ pluginEvents Event.pluginStop sOK.profilers_
                   ++ pluginEvents Event.pluginCollect sOK.profilers_
                   ++ [Event.lockRelease]
                   ++ [Event.postProcess sOK.start_time_ns_] }) :=
  c3_collect_sequence sOK [] w0 (by decide) (by decide)

/-- C4 counterexample: on `sReleased` (OK status, lock already released by a
previous `CollectData`), a further `CollectData` is not a no-op: it emits
stop, collect and post-processing events for its plugins, so the event log
changes, contrary to the claim that only the stored status is returned. -/
theorem c4_counterexample :
    (ProfilerSession.CollectData sReleased [] w0).1 = Status.OK ∧
    (ProfilerSession.CollectData sReleased [] w0).2.2.2.events =
      [Event.pluginStop 0, Event.pluginStop 1, Event.pluginCollect 0,
       Event.pluginCollect 1, Event.postProcess (some 100)] ∧
    (ProfilerSession.CollectData sReleased [] w0).2.2.2.events ≠ w0.events := by
  refine ⟨rfl, by decide, by decide⟩

/-- Unfolding of `CollectData` on a session with OK status whose lock is no
longer active: the plugin stop and collect loops and the post-processing
step all run again, but the lock release is an idempotent no-op, so the
session and the process-wide flag are unchanged.  Shared helper. -/
theorem collectData_ok_inactive_eq (s : ProfilerSession) (space : XSpace) (w : World)
    (h : s.status_ = Status.OK) (hl : s.profiler_lock_.active = false) :
    ProfilerSession.CollectData s space w =
      (Status.OK, s,
       s.profilers_.foldl
         (fun sp p => if p.collectResult = Status.OK then sp ++ [p.data] else sp) space,
       { w with events := w.events ++ pluginEvents Event.pluginStop s.profilers_
           ++ pluginEvents Event.pluginCollect s.profilers_
           ++ [Event.postProcess s.start_time_ns_] }) := by
  cases s with
  | mk o st ps l t =>
    simp only [ProfilerSession.status_] at h
    simp only [ProfilerSession.profiler_lock_] at hl
    subst h
    simp [ProfilerSession.CollectData, ProfilerSession.CollectDataInternal,
      ProfilerLock.ReleaseIfActive, hl, List.append_assoc]

/-- C4 amended: after the lock has been released, a further `CollectData` on
an OK session returns OK and does not release the lock again (no release
event, session unchanged), but it is not a no-op: it re-runs plugin `Stop`
and `CollectData` on every plugin and the post-processing step. -/
theorem c4_collect_after_release (s : ProfilerSession) (space : XSpace) (w : World)
    (h : s.status_ = Status.OK) (hl : s.profiler_lock_.active = false) :
    ProfilerSession.CollectData s space w =
      (Status.OK, s,
       s.profilers_.foldl
         (fun sp p => if p.collectResult = Status.OK then sp ++ [p.data] else sp) space,
       { w with events := w.events ++ pluginEvents Event.pluginStop s.profilers_
           ++ pluginEvents Event.pluginCollect s.profilers_
           ++ [Event.postProcess s.start_time_ns_] }) ∧
    countReleases (ProfilerSession.CollectData s space w).2.2.2.events =
      countReleases w.events := by
  have hstop := countReleases_pluginEvents Event.pluginStop
    (by intro i; simp) s.profilers_
  have hcol := countReleases_pluginEvents Event.pluginCollect
    (by intro i; simp) s.profilers_
  refine ⟨collectData_ok_inactive_eq s space w h hl, ?_⟩
  rw [collectData_ok_inactive_eq s space w h hl]
  rw [countReleases_append, countReleases_append, countReleases_append, hstop, hcol]
  simp [countReleases]

/-- Witness for C4's amended claim at `sReleased`. -/
theorem c4_collect_after_release_witness :
    ProfilerSession.CollectData sReleased [] w0 =
      (Status.OK, sReleased,
       sReleased.profilers_.foldl
         (fun sp p => if p.collectResult = Status.OK then sp ++ [p.data] else sp) [],
       { w0 with events := w0.events
           ++ pluginEvents Event.pluginStop sReleased.profilers_
           ++ pluginEvents Event.pluginCollect sReleased.profilers_
           ++ [Event.postProcess sReleased.start_time_ns_] }) ∧
    countReleases (ProfilerSession.CollectData sReleased [] w0).2.2.2.events =
      countReleases w0.events :=
  c4_collect_after_release sReleased [] w0 (by decide) (by decide)

/-- C5: a successful `CollectData` followed by destruction frees the process
lock exactly once: `CollectData` emits the single release, the destructor
stops every plugin once more and its release attempt is an idempotent no-op,
so the final trace counts exactly one more release than the initial one. -/
theorem c5_single_release (s : ProfilerSession) (space : XSpace) (w : World)
    (h : s.status_ = Status.OK) (hl : s.profiler_lock_.active = true) :
    ProfilerSession.destructor (ProfilerSession.CollectData s space w).2.1
        (ProfilerSession.CollectData s space w).2.2.2 =
      { sessionActive := false, now := w.now,
        events := w.events ++ pluginEvents Event.pluginStop s.profilers_
          ++ pluginEvents Event.pluginCollect s.profilers_
          ++ [Event.lockRelease] ++ [Event.postProcess s.start_time_ns_]
          ++ pluginEvents Event.pluginStop s.profilers_ } ∧
    countReleases (ProfilerSession.destructor
        (ProfilerSession.CollectData s space w).2.1
        (ProfilerSession.CollectData s space w).2.2.2).events =
      countReleases w.events + 1 := by
  have h1 := collectData_ok_active_eq s space w h hl
  have hstop := countReleases_pluginEvents Event.pluginStop
    (by intro i; simp) s.profilers_
  have hcol := countReleases_pluginEvents Event.pluginCollect
    (by intro i; simp) s.profilers_
  have hr : countReleases [Event.lockRelease] = 1 := by simp [countReleases]
  have hp : countReleases [Event.postProcess s.start_time_ns_] = 0 := by
    simp [countReleases]
  have hw : ProfilerSession.destructor (ProfilerSession.CollectData s space w).2.1
      (ProfilerSession.CollectData s space w).2.2.2 =
      { sessionActive := false, now := w.now,
        events := w.events ++ pluginEvents Event.pluginStop s.profilers_
          ++ pluginEvents Event.pluginCollect s.profilers_
          ++ [Event.lockRelease] ++ [Event.postProcess s.start_time_ns_]
          ++ pluginEvents Event.pluginStop s.profilers_ } := by
    rw [h1]
    simp [ProfilerSession.destructor, ProfilerLock.ReleaseIfActive, List.append_assoc]
  refine ⟨hw, ?_⟩
  rw [hw]
  dsimp only
  rw [countReleases_append, countReleases_append, countReleases_append,
    countReleases_append, countReleases_append, hstop, hcol, hr, hp]

/-- Witness for C5 at `sOK` in the free world `w0`. -/
theorem c5_single_release_witness :
    ProfilerSession.destructor (ProfilerSession.CollectData sOK [] w0).2.1
        (ProfilerSession.CollectData sOK [] w0).2.2.2 =
      { sessionActive := false, now := w0.now,
        events := w0.events ++ pluginEvents Event.pluginStop sOK.profilers_
          ++ pluginEvents Event.pluginCollect sOK.profilers_
          ++ [Event.lockRelease] ++ [Event.postProcess sOK.start_time_ns_]
          ++ pluginEvents Event.pluginStop sOK.profilers_ } ∧
    countReleases (ProfilerSession.destructor
        (ProfilerSession.CollectData sOK [] w0).2.1
        (ProfilerSession.CollectData sOK [] w0).2.2.2).events =
      countReleases w0.events + 1 :=
  c5_single_release sOK [] w0 (by decide) (by decide)

/-- Options with a future scheduled start (relative to `w0.now = 100`). -/
def optsFuture : ProfileOptions :=
  { version := 1, include_dataset_ops := true, start_timestamp_ns := 250, other := 4 }

/-- Options with an already-past scheduled start (relative to `w0.now`). -/
def optsPast : ProfileOptions :=
  { version := 1, include_dataset_ops := true, start_timestamp_ns := 50, other := 4 }

/-- C7: if the merged `start_timestamp_ns` is positive and not already past,
construction sleeps exactly until that absolute time (the clock advances to
it) before anything else; if it is zero, negative or already past,
construction proceeds immediately with the clock unchanged.  In both cases
`start_time_ns` is recorded as the current time after the delay, and in the
trace the sleep (if any) precedes the factory consultation, which precedes
every plugin start. -/
theorem c7_scheduled_start (factory : ProfileOptions → List CollectorPlugin)
    (options : ProfileOptions) (w : World) (hw : w.sessionActive = false) :
    ((GetOptions options).start_timestamp_ns > 0 →
     (GetOptions options).start_timestamp_ns ≥ w.now →
      ProfilerSession.construct factory options w =
        ({ options_ := GetOptions options, status_ := Status.OK,
           profilers_ := factory (GetOptions options),
           profiler_lock_ := { active := true },
           start_time_ns_ := some (GetOptions options).start_timestamp_ns },
         { sessionActive := true, now := (GetOptions options).start_timestamp_ns,
           events := w.events
             ++ [Event.sleep ((GetOptions options).start_timestamp_ns - w.now)]
             ++ [Event.factoryCreate]
             ++ pluginEvents Event.pluginStart (factory (GetOptions options)) })) ∧
    ((GetOptions options).start_timestamp_ns ≤ 0 ∨
       (GetOptions options).start_timestamp_ns < w.now →
      ProfilerSession.construct factory options w =
        ({ options_ := GetOptions options, status_ := Status.OK,
           profilers_ := factory (GetOptions options),
           profiler_lock_ := { active := true },
           start_time_ns_ := some w.now },
         { sessionActive := true, now := w.now,
           events := w.events ++ [Event.factoryCreate]
             ++ pluginEvents Event.pluginStart (factory (GetOptions options)) })) := by
  constructor
  · intro h1 h2
    have hd : ¬ ((GetOptions options).start_timestamp_ns - w.now < 0) := by omega
    simp [ProfilerSession.construct, ProfilerLock.Acquire, hw, h1, hd,
      List.append_assoc]
  · intro h
    by_cases h1 : (GetOptions options).start_timestamp_ns > 0
    · have hd : (GetOptions options).start_timestamp_ns - w.now < 0 := by
        rcases h with h | h <;> omega
      simp [ProfilerSession.construct, ProfilerLock.Acquire, hw, h1, hd,
        List.append_assoc]
    · simp [ProfilerSession.construct, ProfilerLock.Acquire, hw, h1,
        List.append_assoc]

/-- Witness for C7: a future start (250 > now = 100) sleeps to 250; a past
start (50 < now = 100) proceeds immediately. -/
theorem c7_scheduled_start_witness :
    ProfilerSession.construct sampleFactory optsFuture w0 =
      ({ options_ := GetOptions optsFuture, status_ := Status.OK,
         profilers_ := sampleFactory (GetOptions optsFuture),
         profiler_lock_ := { active := true },
         start_time_ns_ := some (GetOptions optsFuture).start_timestamp_ns },
       { sessionActive := true, now := (GetOptions optsFuture).start_timestamp_ns,
         events := w0.events
           ++ [Event.sleep ((GetOptions optsFuture).start_timestamp_ns - w0.now)]
           ++ [Event.factoryCreate]
           ++ pluginEvents Event.pluginStart (sampleFactory (GetOptions optsFuture)) }) ∧
    ProfilerSession.construct sampleFactory optsPast w0 =
      ({ options_ := GetOptions optsPast, status_ := Status.OK,
         profilers_ := sampleFactory (GetOptions optsPast),
         profiler_lock_ := { active := true },
         start_time_ns_ := some w0.now },
       { sessionActive := true, now := w0.now,
         events := w0.events ++ [Event.factoryCreate]
           ++ pluginEvents Event.pluginStart (sampleFactory (GetOptions optsPast)) }) :=
  ⟨(c7_scheduled_start sampleFactory optsFuture w0 (by decide)).1 (by decide) (by decide),
   (c7_scheduled_start sampleFactory optsPast w0 (by decide)).2 (Or.inr (by decide))⟩
